import Mathlib

/-!
Verification of the health-check service (`src/index.js`).

The service formats system metrics and a dependency list into prompts, sends
them to an external classification oracle (an LLM reached through
`llm.invoke`), validates the one-word answers, merges the two verdicts with
deterministic business rules, and formats an HTTP response.

Modelling choices:
  * The oracle (`llm` + `StringOutputParser`) is a function
    `String → Except String String`: given the rendered prompt it returns the
    raw response text or fails (network/auth error).
  * Fallible JS code (`throw`) is `Except String`.
  * `new Date().toISOString()` is modelled by an explicit `now : String`
    parameter threaded to where the timestamp is produced.
  * JS `String.prototype.trim` / `toUpperCase` are modelled on ASCII by
    `jsTrim` / `jsToUpperCase` (the service only ever compares against ASCII
    literals).
  * `Promise.all` of the two already-started checks is modelled as a join of
    the two `Except` results: it succeeds only when both succeed.
-/

set_option maxRecDepth 100000

/-- ASCII whitespace, the fragment of the JS `trim` character class the
service can actually meet in its ASCII-literal comparisons. -/
def isJsWhitespace (c : Char) : Bool :=
  c = ' ' || c = '\t' || c = '\n' || c = '\r' || c = '\x0b' || c = '\x0c'

/-- JS `String.prototype.trim` (ASCII fragment): drop leading and trailing
whitespace. -/
def jsTrim (s : String) : String :=
  String.mk (((s.data.dropWhile isJsWhitespace).reverse.dropWhile isJsWhitespace).reverse)

/-- JS `String.prototype.toUpperCase` (ASCII fragment). -/
def jsToUpperCase (s : String) : String :=
  String.mk (s.data.map Char.toUpper)

/-- JS `Array.prototype.join` with the given separator. -/
def joinWith (sep : String) : List String → String
  | [] => ""
  | [line] => line
  | line :: rest => line ++ sep ++ joinWith sep rest

/-- The classification oracle: rendered prompt in, raw response text out,
or an opaque failure. -/
abbrev Oracle := String → Except String String

/-- The five numeric system metrics (`systemMetrics` object built in the
first step of `comprehensiveHealthChain`). -/
structure SystemMetrics where
  cpuUsage : Int
  memoryUsage : Int
  diskUsage : Int
  responseTime : Int
  errorRate : Int
deriving DecidableEq

/-- One entry of the `dependencies` array: `{name, status, critical}`. -/
structure DependencyStatus where
  name : String
  status : String
  critical : Bool
deriving DecidableEq

/-- The input of `comprehensiveHealthChain` (`healthCheckInput`). -/
structure HealthCheckInput where
  cpuUsage : Int
  memoryUsage : Int
  diskUsage : Int
  responseTime : Int
  errorRate : Int
  dependencies : List DependencyStatus
deriving DecidableEq

/-- `healthAnalysisPrompt` applied to the metrics: the template of
`src/index.js` lines 60-79 with its placeholders substituted, exactly as
`PromptTemplate.fromTemplate` renders it. -/
def renderHealthPrompt (m : SystemMetrics) : String :=
  "\nYou are a system health analyzer. Analyze the following system metrics and determine if the system is healthy.\n\nSystem Metrics:\n- CPU Usage: "
    ++ toString m.cpuUsage ++
  "%\n- Memory Usage: "
    ++ toString m.memoryUsage ++
  "%\n- Disk Usage: "
    ++ toString m.diskUsage ++
  "%\n- Response Time: "
    ++ toString m.responseTime ++
  "ms\n- Error Rate: "
    ++ toString m.errorRate ++
  "%\n\nRules for Health Assessment:\n- CPU Usage > 80% = UNHEALTHY\n- Memory Usage > 85% = UNHEALTHY  \n- Disk Usage > 90% = UNHEALTHY\n- Response Time > 2000ms = UNHEALTHY\n- Error Rate > 5% = UNHEALTHY\n- Otherwise = HEALTHY\n\nRespond with exactly one word: either \"HEALTHY\" or \"UNHEALTHY\"\n"

/-- `dependencyCheckPrompt` applied to the rendered dependency block
(`src/index.js` lines 111-123). -/
def renderDependencyPrompt (dependencies : String) : String :=
  "\nYou are a service dependency analyzer. Check if the system\x27s dependencies are healthy.\n\nService Dependencies:\n"
    ++ dependencies ++
  "\n\nRules:\n- If ANY critical service is down, respond with \"DEPENDENCY_FAILURE\"\n- If all critical services are up but some non-critical are down, respond with \"PARTIAL_DEPENDENCY\"\n- If all services are up, respond with \"DEPENDENCIES_HEALTHY\"\n\nRespond with exactly one of these three options.\n"

/-- `validateHealthResponse` (`src/index.js` lines 82-88). -/
def validateHealthResponse (response : String) : Except String String :=
  let trimmed := jsToUpperCase (jsTrim response)
  if trimmed = "HEALTHY" ∨ trimmed = "UNHEALTHY" then
    Except.ok trimmed
  else
    Except.error ("Invalid health check response: " ++ response)

/-- The `validResponses` list of `validateDependencyResponse`. -/
def validResponses : List String :=
  ["DEPENDENCY_FAILURE", "PARTIAL_DEPENDENCY", "DEPENDENCIES_HEALTHY"]

/-- `validateDependencyResponse` (`src/index.js` lines 125-137). -/
def validateDependencyResponse (response : String) : Except String String :=
  let trimmed := jsToUpperCase (jsTrim response)
  if trimmed ∈ validResponses then
    Except.ok trimmed
  else
    Except.error ("Invalid dependency check response: " ++ response)

/-- `healthAnalysisChain`: prompt → oracle → parse → validate
(`src/index.js` lines 91-96; the `StringOutputParser` is already folded
into the oracle's `String` result). -/
def healthAnalysisChain (oracle : Oracle) (m : SystemMetrics) : Except String String :=
  (oracle (renderHealthPrompt m)).bind validateHealthResponse

/-- `dependencyCheckChain` (`src/index.js` lines 139-144); its input is the
already-rendered dependency block. -/
def dependencyCheckChain (oracle : Oracle) (dependencies : String) : Except String String :=
  (oracle (renderDependencyPrompt dependencies)).bind validateDependencyResponse

/-- One rendered dependency line, the arrow function inside the `.map`
of step 1 of `comprehensiveHealthChain` (`src/index.js` lines 173-178)
and of the `/api/health/dependencies` handler (lines 430-437). -/
def renderDependencyLine (dep : DependencyStatus) : String :=
  "- " ++ dep.name ++ ": " ++ dep.status ++ " (" ++
    (if dep.critical then "Critical" else "Non-Critical") ++ ")"

/-- Output of step 1 of `comprehensiveHealthChain`. -/
structure PreparedData where
  systemMetrics : SystemMetrics
  dependencies : String
  originalInput : HealthCheckInput
deriving DecidableEq

/-- Step 1 of `comprehensiveHealthChain` (`src/index.js` lines 161-186):
select the metric fields and render the dependency block. -/
def prepareHealthData (input : HealthCheckInput) : PreparedData :=
  { systemMetrics :=
      { cpuUsage := input.cpuUsage
        memoryUsage := input.memoryUsage
        diskUsage := input.diskUsage
        responseTime := input.responseTime
        errorRate := input.errorRate }
    dependencies := joinWith "\n" (input.dependencies.map renderDependencyLine)
    originalInput := input }

/-- Output of step 2 of `comprehensiveHealthChain`. -/
structure CheckResults where
  systemHealth : String
  dependencyHealth : String
  originalInput : HealthCheckInput
deriving DecidableEq

/-- Step 2 of `comprehensiveHealthChain` (`src/index.js` lines 189-208):
`Promise.all` over both checks, wrapping any failure in
`Health check failed: ...`.  The join succeeds only when both checks
succeed. -/
def runParallelChecks (oracle : Oracle) (data : PreparedData) : Except String CheckResults :=
  match healthAnalysisChain oracle data.systemMetrics,
        dependencyCheckChain oracle data.dependencies with
  | Except.ok systemHealth, Except.ok dependencyHealth =>
      Except.ok
        { systemHealth := systemHealth
          dependencyHealth := dependencyHealth
          originalInput := data.originalInput }
  | Except.error e, _ => Except.error ("Health check failed: " ++ e)
  | _, Except.error e => Except.error ("Health check failed: " ++ e)

/-- The `checkedComponents` object of the comprehensive result. -/
structure CheckedComponents where
  cpu : Int
  memory : Int
  disk : Int
  responseTime : Int
  errorRate : Int
  dependencies : Nat
deriving DecidableEq

/-- The comprehensive evaluation result (`src/index.js` lines 236-250). -/
structure ComprehensiveResult where
  status : String
  systemHealth : String
  dependencyHealth : String
  reasoning : List String
  timestamp : String
  checkedComponents : CheckedComponents
deriving DecidableEq

/-- Step 3 of `comprehensiveHealthChain` (`src/index.js` lines 211-251):
`overallHealth` starts at `"HEALTHY"`, is set to `"UNHEALTHY"` by an
unhealthy system check and by a critical dependency failure, and the
reasoning strings are pushed in that order. -/
def applyBusinessLogic (now : String) (results : CheckResults) : ComprehensiveResult :=
  let overallAfterSystem :=
    if results.systemHealth = "UNHEALTHY" then "UNHEALTHY" else "HEALTHY"
  let reasoningAfterSystem :=
    if results.systemHealth = "UNHEALTHY" then
      ["System metrics indicate unhealthy state"]
    else
      ["System metrics are within healthy ranges"]
  let overallFinal :=
    if results.dependencyHealth = "DEPENDENCY_FAILURE" then "UNHEALTHY"
    else overallAfterSystem
  let reasoningFinal :=
    if results.dependencyHealth = "DEPENDENCY_FAILURE" then
      reasoningAfterSystem ++ ["Critical dependencies are failing"]
    else if results.dependencyHealth = "PARTIAL_DEPENDENCY" then
      reasoningAfterSystem ++ ["Some non-critical dependencies are down"]
    else
      reasoningAfterSystem ++ ["All dependencies are healthy"]
  { status := overallFinal
    systemHealth := results.systemHealth
    dependencyHealth := results.dependencyHealth
    reasoning := reasoningFinal
    timestamp := now
    checkedComponents :=
      { cpu := results.originalInput.cpuUsage
        memory := results.originalInput.memoryUsage
        disk := results.originalInput.diskUsage
        responseTime := results.originalInput.responseTime
        errorRate := results.originalInput.errorRate
        dependencies := results.originalInput.dependencies.length } }

/-- `comprehensiveHealthChain` (`src/index.js` lines 159-252): prepare,
fan-out/join, merge. -/
def comprehensiveHealthChain (oracle : Oracle) (now : String)
    (input : HealthCheckInput) : Except String ComprehensiveResult :=
  (runParallelChecks oracle (prepareHealthData input)).map (applyBusinessLogic now)

/-- The formatted HTTP payload (`src/index.js` lines 261-288). -/
structure FormattedResponse where
  httpStatus : Nat
  message : String
  details : ComprehensiveResult
  recommendations : List String
deriving DecidableEq

/-- `healthyResponseChain` (`src/index.js` lines 261-266). -/
def healthyResponseChain (input : ComprehensiveResult) : FormattedResponse :=
  { httpStatus := 200
    message := "System is healthy"
    details := input
    recommendations := [] }

/-- `unhealthyResponseChain` (`src/index.js` lines 268-288): the two
conditional pushes onto `recommendations`, in source order. -/
def unhealthyResponseChain (input : ComprehensiveResult) : FormattedResponse :=
  let recommendations :=
    (if input.systemHealth = "UNHEALTHY" then
      ["Check system resources and optimize performance"]
     else []) ++
    (if input.dependencyHealth = "DEPENDENCY_FAILURE" then
      ["Investigate and restore critical service dependencies"]
     else [])
  { httpStatus := 500
    message := "System is unhealthy"
    details := input
    recommendations := recommendations }

/-- `conditionalResponseChain` (`src/index.js` lines 290-295):
`RunnableBranch` on `input.status === "HEALTHY"`. -/
def conditionalResponseChain (input : ComprehensiveResult) : FormattedResponse :=
  if input.status = "HEALTHY" then healthyResponseChain input
  else unhealthyResponseChain input

/-- `masterHealthCheckChain` (`src/index.js` lines 305-308). -/
def masterHealthCheckChain (oracle : Oracle) (now : String)
    (input : HealthCheckInput) : Except String FormattedResponse :=
  (comprehensiveHealthChain oracle now input).map conditionalResponseChain

/-- The `dependencies` field of the body of `POST /api/health/dependencies`:
absent (or otherwise falsy), present but not an array, or an array. -/
inductive DependenciesField where
  | absent : DependenciesField
  | notArray : DependenciesField
  | array : List DependencyStatus → DependenciesField
deriving DecidableEq

/-- The JSON payload of the `/api/health/dependencies` handler; fields that
a branch does not emit are `none`. -/
structure DependenciesEndpointResponse where
  httpStatus : Nat
  status : String
  message : String
  dependencyHealth : Option String
  dependencies : Option (List DependencyStatus)
  errorText : Option String
  timestamp : Option String
deriving DecidableEq

/-- The `POST /api/health/dependencies` handler (`src/index.js` lines
418-466): reject a missing or non-array `dependencies` with 400, otherwise
render the block, run `dependencyCheckChain`, and map the verdict
(`DEPENDENCIES_HEALTHY` → 200/healthy, anything else → 500/unhealthy);
a chain failure is caught and reported as a 500 error payload. -/
def dependenciesEndpoint (oracle : Oracle) (now : String)
    (body : DependenciesField) : DependenciesEndpointResponse :=
  match body with
  | DependenciesField.absent =>
      { httpStatus := 400
        status := "error"
        message := "Dependencies array is required in request body"
        dependencyHealth := none
        dependencies := none
        errorText := none
        timestamp := none }
  | DependenciesField.notArray =>
      { httpStatus := 400
        status := "error"
        message := "Dependencies array is required in request body"
        dependencyHealth := none
        dependencies := none
        errorText := none
        timestamp := none }
  | DependenciesField.array deps =>
      match dependencyCheckChain oracle (joinWith "\n" (deps.map renderDependencyLine)) with
      | Except.ok dependencyHealth =>
          if dependencyHealth = "DEPENDENCIES_HEALTHY" then
            { httpStatus := 200
              status := "healthy"
              message := "All dependencies are healthy"
              dependencyHealth := some dependencyHealth
              dependencies := some deps
              errorText := none
              timestamp := some now }
          else
            { httpStatus := 500
              status := "unhealthy"
              message := "Some dependencies are failing"
              dependencyHealth := some dependencyHealth
              dependencies := some deps
              errorText := none
              timestamp := some now }
      | Except.error e =>
          { httpStatus := 500
            status := "error"
            message := "Dependency check system failure"
            dependencyHealth := none
            dependencies := none
            errorText := some e
            timestamp := some now }

/-- `exceptIsOk e = true` exactly when `e` carries a success value. -/
def exceptIsOk {ε α : Type} : Except ε α → Bool
  | Except.ok _ => true
  | Except.error _ => false

/-- The end-to-end example input of the spec:
`{cpuUsage:10, memoryUsage:10, diskUsage:10, responseTime:50, errorRate:0,
dependencies:[{name:"DB",status:"up",critical:true}]}`. -/
def sampleInput : HealthCheckInput :=
  { cpuUsage := 10
    memoryUsage := 10
    diskUsage := 10
    responseTime := 50
    errorRate := 0
    dependencies := [{ name := "DB", status := "up", critical := true }] }

/-- Mock oracle answering `"HEALTHY"` to the health prompt for
`sampleInput` and `"DEPENDENCIES_HEALTHY"` to its dependency prompt. -/
def mockOracleHealthy : Oracle := fun prompt =>
  if prompt = renderHealthPrompt (prepareHealthData sampleInput).systemMetrics then
    Except.ok "HEALTHY"
  else if prompt = renderDependencyPrompt (prepareHealthData sampleInput).dependencies then
    Except.ok "DEPENDENCIES_HEALTHY"
  else
    Except.error "unexpected prompt"

/-- Mock oracle answering `"UNHEALTHY"` to the health prompt for
`sampleInput` and `"DEPENDENCY_FAILURE"` to its dependency prompt. -/
def mockOracleFailing : Oracle := fun prompt =>
  if prompt = renderHealthPrompt (prepareHealthData sampleInput).systemMetrics then
    Except.ok "UNHEALTHY"
  else if prompt = renderDependencyPrompt (prepareHealthData sampleInput).dependencies then
    Except.ok "DEPENDENCY_FAILURE"
  else
    Except.error "unexpected prompt"

/-- Projection of a master-chain outcome onto the fields the end-to-end
examples talk about: overall status, HTTP status, recommendations. -/
def responseSummary (e : Except String FormattedResponse) :
    Option (String × Nat × List String) :=
  match e with
  | Except.ok r => some (r.details.status, r.httpStatus, r.recommendations)
  | Except.error _ => none

/-- Modelled from the spec: one dependency line of §4.4,
`"- {name}: {status} ({Critical|Non-Critical})"`, with the status string
rendered verbatim. -/
def specDependencyLine (dep : DependencyStatus) : String :=
  "- " ++ dep.name ++ ": " ++ dep.status ++ " (" ++
    (if dep.critical then "Critical" else "Non-Critical") ++ ")"

/-- The comprehensive result the chain computes for `sampleInput` under
`mockOracleHealthy` at time `2024-01-01T00:00:00.000Z`. -/
def sampleHealthyResult : ComprehensiveResult :=
  { status := "HEALTHY"
    systemHealth := "HEALTHY"
    dependencyHealth := "DEPENDENCIES_HEALTHY"
    reasoning := ["System metrics are within healthy ranges",
                  "All dependencies are healthy"]
    timestamp := "2024-01-01T00:00:00.000Z"
    checkedComponents :=
      { cpu := 10, memory := 10, disk := 10, responseTime := 50,
        errorRate := 0, dependencies := 1 } }

/-- Claim C1: for every pair of validated check results, the overall status
produced by the merge step of `comprehensiveHealthChain` is `"UNHEALTHY"`
iff the system verdict is `"UNHEALTHY"` or the dependency verdict is
`"DEPENDENCY_FAILURE"`; a `"HEALTHY"` system verdict together with
`"PARTIAL_DEPENDENCY"` yields `"HEALTHY"`, and the status is always one of
the two values (escalation is monotone). -/
theorem comprehensive_status_iff (now : String) (results : CheckResults)
    (hs : results.systemHealth = "HEALTHY" ∨ results.systemHealth = "UNHEALTHY")
    (hd : results.dependencyHealth ∈ validResponses) :
    ((applyBusinessLogic now results).status = "UNHEALTHY" ↔
      (results.systemHealth = "UNHEALTHY" ∨ results.dependencyHealth = "DEPENDENCY_FAILURE"))
    ∧ (results.systemHealth = "HEALTHY" ∧ results.dependencyHealth = "PARTIAL_DEPENDENCY" →
        (applyBusinessLogic now results).status = "HEALTHY")
    ∧ ((applyBusinessLogic now results).status = "HEALTHY" ∨
        (applyBusinessLogic now results).status = "UNHEALTHY") := by
  unfold applyBusinessLogic
  by_cases h1 : results.systemHealth = "UNHEALTHY" <;>
    by_cases h2 : results.dependencyHealth = "DEPENDENCY_FAILURE" <;>
      simp [h1, h2]

/-- Witness for C1: `HEALTHY` + `PARTIAL_DEPENDENCY` evaluates to overall
`HEALTHY`. -/
theorem comprehensive_status_iff_witness :
    (applyBusinessLogic "2024-01-01T00:00:00.000Z"
      { systemHealth := "HEALTHY", dependencyHealth := "PARTIAL_DEPENDENCY",
        originalInput := sampleInput }).status = "HEALTHY" :=
  ((comprehensive_status_iff "2024-01-01T00:00:00.000Z"
      { systemHealth := "HEALTHY", dependencyHealth := "PARTIAL_DEPENDENCY",
        originalInput := sampleInput }
      (Or.inl rfl) (by decide)).2.1) ⟨rfl, rfl⟩

/-- Claim C3: `validateHealthResponse` succeeds exactly when the response,
trimmed and uppercased, is `"HEALTHY"` or `"UNHEALTHY"`, returning that
normalized text; on anything else it fails with the
`Invalid health check response:` error carrying the raw response. -/
theorem validateHealthResponse_spec (response : String) :
    (jsToUpperCase (jsTrim response) = "HEALTHY" ∨ jsToUpperCase (jsTrim response) = "UNHEALTHY" →
      validateHealthResponse response = Except.ok (jsToUpperCase (jsTrim response)))
    ∧ (¬(jsToUpperCase (jsTrim response) = "HEALTHY" ∨ jsToUpperCase (jsTrim response) = "UNHEALTHY") →
      validateHealthResponse response =
        Except.error ("Invalid health check response: " ++ response))
    ∧ ((∃ v, validateHealthResponse response = Except.ok v) ↔
      (jsToUpperCase (jsTrim response) = "HEALTHY" ∨ jsToUpperCase (jsTrim response) = "UNHEALTHY")) := by
  unfold validateHealthResponse
  by_cases h : jsToUpperCase (jsTrim response) = "HEALTHY" ∨ jsToUpperCase (jsTrim response) = "UNHEALTHY" <;>
    simp [h]

/-- Witness for C3: `"  healthy \n"` is accepted and normalized to
`"HEALTHY"`. -/
theorem validateHealthResponse_spec_witness :
    validateHealthResponse "  healthy \n" = Except.ok (jsToUpperCase (jsTrim "  healthy \n")) :=
  (validateHealthResponse_spec "  healthy \n").1 (by decide)

/-- Claim C4: whenever `dependencyCheckChain` succeeds, its value is one of
the three dependency verdict literals, obtained by trimming and uppercasing
the oracle's raw response — never a fourth value. -/
theorem dependencyCheckChain_closed (oracle : Oracle) (dependencies : String) (v : String)
    (h : dependencyCheckChain oracle dependencies = Except.ok v) :
    (v = "DEPENDENCY_FAILURE" ∨ v = "PARTIAL_DEPENDENCY" ∨ v = "DEPENDENCIES_HEALTHY")
    ∧ ∃ raw, oracle (renderDependencyPrompt dependencies) = Except.ok raw
        ∧ v = jsToUpperCase (jsTrim raw) := by
  unfold dependencyCheckChain at h
  cases ho : oracle (renderDependencyPrompt dependencies) with
  | error e =>
      rw [ho] at h
      simp [Except.bind] at h
  | ok raw =>
      rw [ho] at h
      simp only [Except.bind] at h
      unfold validateDependencyResponse at h
      by_cases hmem : jsToUpperCase (jsTrim raw) ∈ validResponses
      · simp [hmem] at h
        subst h
        refine ⟨?_, raw, rfl, rfl⟩
        simpa [validResponses] using hmem
      · simp [hmem] at h

/-- Witness for C4: an oracle answering `" dependencies_healthy "` makes the
chain succeed with the literal `"DEPENDENCIES_HEALTHY"`. -/
theorem dependencyCheckChain_closed_witness :
    ("DEPENDENCIES_HEALTHY" = "DEPENDENCY_FAILURE" ∨
      "DEPENDENCIES_HEALTHY" = "PARTIAL_DEPENDENCY" ∨
      "DEPENDENCIES_HEALTHY" = "DEPENDENCIES_HEALTHY")
    ∧ ∃ raw, (fun _ => Except.ok " dependencies_healthy " : Oracle) (renderDependencyPrompt "") =
          Except.ok raw
        ∧ "DEPENDENCIES_HEALTHY" = jsToUpperCase (jsTrim raw) :=
  dependencyCheckChain_closed (fun _ => Except.ok " dependencies_healthy ") "" "DEPENDENCIES_HEALTHY"
    (by rfl)

/-- Claim C2: if either of the two concurrently launched checks fails, the
whole comprehensive evaluation fails — no `ComprehensiveResult` is
produced, with no partial-result policy and no fallback verdict. -/
theorem comprehensive_fail_fast (oracle : Oracle) (now : String) (input : HealthCheckInput)
    (h : exceptIsOk (healthAnalysisChain oracle (prepareHealthData input).systemMetrics) = false
       ∨ exceptIsOk (dependencyCheckChain oracle (prepareHealthData input).dependencies) = false) :
    exceptIsOk (comprehensiveHealthChain oracle now input) = false := by
  unfold comprehensiveHealthChain runParallelChecks
  cases hh : healthAnalysisChain oracle (prepareHealthData input).systemMetrics with
  | error e => simp [Except.map, exceptIsOk]
  | ok sh =>
      cases hd : dependencyCheckChain oracle (prepareHealthData input).dependencies with
      | error e => simp [Except.map, exceptIsOk]
      | ok dh =>
          rw [hh, hd] at h
          simp [exceptIsOk] at h

/-- Witness for C2: an oracle that always fails makes the comprehensive
evaluation fail on the sample input. -/
theorem comprehensive_fail_fast_witness :
    exceptIsOk (comprehensiveHealthChain (fun _ => Except.error "ECONNREFUSED") "t" sampleInput)
      = false :=
  comprehensive_fail_fast (fun _ => Except.error "ECONNREFUSED") "t" sampleInput
    (Or.inl (by rfl))

/-- Claim C5: the response formatter is a pure function of the
comprehensive result: status `"HEALTHY"` yields 200 / `"System is healthy"`
/ no recommendations; status `"UNHEALTHY"` yields 500 /
`"System is unhealthy"`, with the resource recommendation present iff the
system verdict is `"UNHEALTHY"` and the dependency recommendation present
iff the dependency verdict is `"DEPENDENCY_FAILURE"`, in that order when
both apply; `"PARTIAL_DEPENDENCY"` alone contributes none. -/
theorem conditionalResponseChain_spec (r : ComprehensiveResult) :
    (r.status = "HEALTHY" →
      conditionalResponseChain r =
        { httpStatus := 200, message := "System is healthy", details := r,
          recommendations := [] })
    ∧ (r.status = "UNHEALTHY" →
        (conditionalResponseChain r).httpStatus = 500
        ∧ (conditionalResponseChain r).message = "System is unhealthy"
        ∧ ("Check system resources and optimize performance" ∈
              (conditionalResponseChain r).recommendations ↔ r.systemHealth = "UNHEALTHY")
        ∧ ("Investigate and restore critical service dependencies" ∈
              (conditionalResponseChain r).recommendations ↔
            r.dependencyHealth = "DEPENDENCY_FAILURE")
        ∧ (r.systemHealth = "UNHEALTHY" ∧ r.dependencyHealth = "DEPENDENCY_FAILURE" →
            (conditionalResponseChain r).recommendations =
              ["Check system resources and optimize performance",
               "Investigate and restore critical service dependencies"])
        ∧ (r.systemHealth ≠ "UNHEALTHY" ∧ r.dependencyHealth ≠ "DEPENDENCY_FAILURE" →
            (conditionalResponseChain r).recommendations = [])) := by
  constructor
  · intro hok
    simp [conditionalResponseChain, hok, healthyResponseChain]
  · intro hbad
    have hne : ¬(r.status = "HEALTHY") := by
      rw [hbad]; decide
    by_cases h1 : r.systemHealth = "UNHEALTHY" <;>
      by_cases h2 : r.dependencyHealth = "DEPENDENCY_FAILURE" <;>
        simp [conditionalResponseChain, hne, unhealthyResponseChain, h1, h2]

/-- Witness for C5: a concrete doubly-failing result gets both
recommendations in order. -/
theorem conditionalResponseChain_spec_witness :
    (conditionalResponseChain
      { status := "UNHEALTHY", systemHealth := "UNHEALTHY",
        dependencyHealth := "DEPENDENCY_FAILURE",
        reasoning := ["System metrics indicate unhealthy state",
                      "Critical dependencies are failing"],
        timestamp := "t",
        checkedComponents :=
          { cpu := 10, memory := 10, disk := 10, responseTime := 50,
            errorRate := 0, dependencies := 1 } }).recommendations =
      ["Check system resources and optimize performance",
       "Investigate and restore critical service dependencies"] :=
  (((conditionalResponseChain_spec
      { status := "UNHEALTHY", systemHealth := "UNHEALTHY",
        dependencyHealth := "DEPENDENCY_FAILURE",
        reasoning := ["System metrics indicate unhealthy state",
                      "Critical dependencies are failing"],
        timestamp := "t",
        checkedComponents :=
          { cpu := 10, memory := 10, disk := 10, responseTime := 50,
            errorRate := 0, dependencies := 1 } }).2 rfl).2.2.2.2).1 ⟨rfl, rfl⟩

/-- Claim C7: the dependency renderer used by the comprehensive chain (and
the dependencies endpoint) produces exactly one line per dependency of the
spec's form `- name: status (Critical|Non-Critical)`, status rendered
verbatim, joined with newlines in list order. -/
theorem dependency_renderer_spec (input : HealthCheckInput) (dep : DependencyStatus) :
    (prepareHealthData input).dependencies =
      joinWith "\n" (input.dependencies.map specDependencyLine)
    ∧ renderDependencyLine dep =
        "- " ++ dep.name ++ ": " ++ dep.status ++ " (" ++
          (if dep.critical then "Critical" else "Non-Critical") ++ ")"
    ∧ specDependencyLine dep = renderDependencyLine dep := by
  refine ⟨?_, rfl, rfl⟩
  have hfun : renderDependencyLine = specDependencyLine := funext fun d => rfl
  simp [prepareHealthData, hfun]

/-- Claim C6: end-to-end through `masterHealthCheckChain` on the example
input, an oracle answering `HEALTHY` / `DEPENDENCIES_HEALTHY` yields
overall `HEALTHY`, HTTP 200 and no recommendations, while `UNHEALTHY` /
`DEPENDENCY_FAILURE` yields overall `UNHEALTHY`, HTTP 500 and both
recommendations in order, whatever the timestamp. -/
theorem masterHealthCheckChain_end_to_end (now : String) :
    responseSummary (masterHealthCheckChain mockOracleHealthy now sampleInput) =
      some ("HEALTHY", 200, [])
    ∧ responseSummary (masterHealthCheckChain mockOracleFailing now sampleInput) =
      some ("UNHEALTHY", 500,
        ["Check system resources and optimize performance",
         "Investigate and restore critical service dependencies"]) :=
  ⟨rfl, rfl⟩

/-- Claim C8: every successful comprehensive evaluation carries the
evaluation-time timestamp and a `checkedComponents` object echoing the five
raw metric values and the dependency count. -/
theorem comprehensiveResult_echo (oracle : Oracle) (now : String) (input : HealthCheckInput)
    (r : ComprehensiveResult) (h : comprehensiveHealthChain oracle now input = Except.ok r) :
    r.timestamp = now
    ∧ r.checkedComponents =
        { cpu := input.cpuUsage, memory := input.memoryUsage, disk := input.diskUsage,
          responseTime := input.responseTime, errorRate := input.errorRate,
          dependencies := input.dependencies.length } := by
  unfold comprehensiveHealthChain runParallelChecks at h
  cases hh : healthAnalysisChain oracle (prepareHealthData input).systemMetrics with
  | error e => rw [hh] at h; simp [Except.map] at h
  | ok sh =>
      cases hd : dependencyCheckChain oracle (prepareHealthData input).dependencies with
      | error e => rw [hh, hd] at h; simp [Except.map] at h
      | ok dh =>
          rw [hh, hd] at h
          simp only [Except.map, Except.ok.injEq] at h
          subst h
          simp [applyBusinessLogic, prepareHealthData]

/-- Witness for C8: the concrete healthy run stamps the given time and
echoes the sample metrics. -/
theorem comprehensiveResult_echo_witness :
    sampleHealthyResult.timestamp = "2024-01-01T00:00:00.000Z"
    ∧ sampleHealthyResult.checkedComponents =
        { cpu := sampleInput.cpuUsage, memory := sampleInput.memoryUsage,
          disk := sampleInput.diskUsage, responseTime := sampleInput.responseTime,
          errorRate := sampleInput.errorRate,
          dependencies := sampleInput.dependencies.length } :=
  comprehensiveResult_echo mockOracleHealthy "2024-01-01T00:00:00.000Z" sampleInput
    sampleHealthyResult (by rfl)

/-- Claim C9: a missing or non-array `dependencies` body field is rejected
with HTTP 400 and the boundary error message, for every oracle — the
response does not depend on the oracle, so no oracle call is consulted. -/
theorem dependenciesEndpoint_boundary (oracle : Oracle) (now : String)
    (body : DependenciesField)
    (h : body = DependenciesField.absent ∨ body = DependenciesField.notArray) :
    dependenciesEndpoint oracle now body =
      { httpStatus := 400, status := "error",
        message := "Dependencies array is required in request body",
        dependencyHealth := none, dependencies := none, errorText := none,
        timestamp := none } := by
  rcases h with h | h <;> subst h <;> rfl

/-- Witness for C9: the absent body field is rejected with 400 under a
healthy oracle. -/
theorem dependenciesEndpoint_boundary_witness :
    dependenciesEndpoint (fun _ => Except.ok "DEPENDENCIES_HEALTHY") "t"
        DependenciesField.absent =
      { httpStatus := 400, status := "error",
        message := "Dependencies array is required in request body",
        dependencyHealth := none, dependencies := none, errorText := none,
        timestamp := none } :=
  dependenciesEndpoint_boundary (fun _ => Except.ok "DEPENDENCIES_HEALTHY") "t"
    DependenciesField.absent (Or.inl rfl)

/-- Claim C10: the dependency-only endpoint reports 200/`"healthy"` exactly
for the `DEPENDENCIES_HEALTHY` verdict; every other valid verdict —
`PARTIAL_DEPENDENCY` included — is reported 500/`"unhealthy"`, even though
in the comprehensive merge `PARTIAL_DEPENDENCY` alone leaves the overall
status `HEALTHY`. -/
theorem dependenciesEndpoint_verdict (oracle : Oracle) (now : String)
    (deps : List DependencyStatus) (v : String)
    (h : dependencyCheckChain oracle (joinWith "\n" (deps.map renderDependencyLine)) =
      Except.ok v) :
    (((dependenciesEndpoint oracle now (DependenciesField.array deps)).httpStatus = 200
        ∧ (dependenciesEndpoint oracle now (DependenciesField.array deps)).status = "healthy")
      ↔ v = "DEPENDENCIES_HEALTHY")
    ∧ (v ≠ "DEPENDENCIES_HEALTHY" →
        (dependenciesEndpoint oracle now (DependenciesField.array deps)).httpStatus = 500
        ∧ (dependenciesEndpoint oracle now (DependenciesField.array deps)).status = "unhealthy")
    ∧ (applyBusinessLogic now
        { systemHealth := "HEALTHY", dependencyHealth := "PARTIAL_DEPENDENCY",
          originalInput := sampleInput }).status = "HEALTHY" := by
  by_cases hv : v = "DEPENDENCIES_HEALTHY" <;>
    simp [dependenciesEndpoint, h, hv, applyBusinessLogic]

/-- Witness for C10: a `PARTIAL_DEPENDENCY` verdict is reported 500 and
`"unhealthy"` by the endpoint. -/
theorem dependenciesEndpoint_verdict_witness :
    (dependenciesEndpoint (fun _ => Except.ok "PARTIAL_DEPENDENCY") "t"
        (DependenciesField.array [{ name := "Cache", status := "down", critical := false }])).httpStatus = 500
    ∧ (dependenciesEndpoint (fun _ => Except.ok "PARTIAL_DEPENDENCY") "t"
        (DependenciesField.array [{ name := "Cache", status := "down", critical := false }])).status = "unhealthy" :=
  (dependenciesEndpoint_verdict (fun _ => Except.ok "PARTIAL_DEPENDENCY") "t"
      [{ name := "Cache", status := "down", critical := false }] "PARTIAL_DEPENDENCY"
      (by rfl)).2.1 (by decide)
